import Mathlib

/-!
Shallow embedding of the data-loading pipeline of this repository
(`load-hhs-old.py`, `load-quality.py`) together with a relational model of
the PostgreSQL tables the two loaders write to (`location`, `hospital`,
`weekly_report`, `hospital_quality`).

Conventions of the embedding:
* CSV numeric cells are `Option ℚ` (`none` is pandas NA/NaN; the script
  converts NA to `None` and, at insert time, NaN to `None`, so the two
  null markers collapse to a single `none` here).
* Text cells are `String`.
* SQL `NULL` for a numeric column is likewise `none`.
* Surrogate ids are `Nat`.
* Floating point: the metric and coordinate values appearing in the claims
  are exact decimals, so they are represented as `ℚ`.
-/

namespace HHS

/-! ## Python string helpers used by the loaders -/

/-- Python `value.strip()`: remove leading and trailing whitespace. -/
def pyStrip (s : String) : String :=
  String.mk (((s.toList.dropWhile Char.isWhitespace).reverse.dropWhile
      Char.isWhitespace).reverse)

/-- Python `value.isdigit()` for ASCII input: non-empty and all digits. -/
def pyIsdigit (s : String) : Bool :=
  !s.isEmpty && s.toList.all Char.isDigit

/-- Python `value.lower()`. -/
def pyLower (s : String) : String :=
  String.mk (s.toList.map Char.toLower)

/-- Numeric value of a digit string, as Python `int(value)` computes it for a
string that passed `isdigit`. -/
def natOfDigits (l : List Char) : Nat :=
  l.foldl (fun a c => a * 10 + (c.toNat - 48)) 0

/-- Value of a digit string. -/
def strToNat (s : String) : Nat := natOfDigits s.toList

/-- Python `s.split(sep)` with a one-character separator, on character
lists: consecutive separators yield empty fields, the empty input yields
one empty field. -/
def splitCharAux (sep : Char) : List Char → List Char → List (List Char)
  | [], acc => [acc.reverse]
  | c :: cs, acc =>
    if c = sep then acc.reverse :: splitCharAux sep cs []
    else splitCharAux sep cs (c :: acc)

/-- Entry point of `splitCharAux`. -/
def splitCharOn (sep : Char) (l : List Char) : List (List Char) :=
  splitCharAux sep l []

/-- Python `s[7:-1]`: characters from index 7 up to (but excluding) the last
one.  This is `.str.slice(start=7, stop=-1)` in `load-hhs-old.py` line 35. -/
def pySlice7 (s : String) : List Char :=
  (s.toList.drop 7).dropLast

/-- Value of one decimal numeral with the given sign: digits, optionally a
point and fraction digits (`a` + point + `b` is `(a·10^|b| + b) / 10^|b|`).
Returns `none` where Python `float(...)` raises `ValueError`.  (Exponent
and inf/nan spellings never occur in the coordinate data and are not
modelled.) -/
def parseDecimal (sign : Int) (l : List Char) : Option ℚ :=
  match splitCharOn '.' l with
  | [a] =>
    if !a.isEmpty && a.all Char.isDigit then
      some (mkRat (sign * natOfDigits a) 1)
    else none
  | [a, b] =>
    if (!a.isEmpty || !b.isEmpty) && a.all Char.isDigit
        && b.all Char.isDigit then
      some (mkRat (sign * (natOfDigits a * 10 ^ b.length + natOfDigits b))
        (10 ^ b.length))
    else none
  | _ => none

/-- Python `float` on a coordinate component: optional sign, then a
decimal numeral (see `parseDecimal`). -/
def parseFloatL : List Char → Option ℚ
  | '-' :: rest => parseDecimal (-1) rest
  | '+' :: rest => parseDecimal 1 rest
  | l => parseDecimal 1 l

/-- Python `float(s)`. -/
def parseFloat (s : String) : Option ℚ := parseFloatL s.toList

/-! ## Weekly loader: raw rows and normalization (`load-hhs-old.py` 16-44) -/

/-- One row of the weekly HHS CSV after `pd.read_csv` and the NA-to-None
conversion (lines 16-29): the columns selected on lines 17-25.  The eight
numeric 7-day-average metric columns are carried positionally in `metrics`,
in the order of the tuple built on lines 104-114. -/
structure RawRow where
  hospital_pk : String
  state : String
  hospital_name : String
  address : String
  city : String
  zip : String
  fips_code : Option ℚ
  geocoded : Option String
  collection_week : String
  metrics : List (Option ℚ)
deriving DecidableEq

/-- The sentinel value -999999 as a rational. -/
def sentinel : ℚ := mkRat (-999999) 1

/-- Line 32: `data_hhs.replace(-999999, np.nan)` on a numeric cell. -/
def replaceSentinel (x : Option ℚ) : Option ℚ :=
  if x = some sentinel then none else x

/-- A weekly row after normalization: sentinel replacement on the numeric
columns and the geocoded point split into `latitude`/`longitude`.
`collection_week` is kept as its (strictly `YYYY-MM-DD`-parsed) string. -/
structure NormRow where
  hospital_pk : String
  state : String
  hospital_name : String
  city : String
  zip : String
  fips_code : Option ℚ
  latitude : Option ℚ
  longitude : Option ℚ
  collection_week : String
  metrics : List (Option ℚ)
deriving DecidableEq

/-- Lines 35-38 for one row, given that the batch-wide split produced two
columns: `s[7:-1]` is split on single spaces; the FIRST component is
assigned to the `latitude` column and the second to `longitude`
(`data_hhs[['latitude', 'longitude']] = ...split(' ', expand=True)`).
A missing (NA) geocoded cell propagates through the `.str` accessors as
NaN, giving NaN in both columns; `astype(float)` then raises on any
component that is not a decimal numeral. -/
def parseGeoRow (g : Option String) : Except String (Option ℚ × Option ℚ) :=
  match g with
  | none => .ok (none, none)
  | some s =>
    let ps := splitCharOn ' ' (pySlice7 s)
    match parseFloatL (ps.headD []) with
    | none => .error "could not convert string to float"
    | some la =>
      match ps.get? 1 with
      | none => .ok (some la, none)
      | some c =>
        match parseFloatL c with
        | none => .error "could not convert string to float"
        | some lo => .ok (some la, some lo)

/-- Number of columns produced by `.str.split(' ', expand=True)` over the
whole geocoded column: the maximum number of components over the non-NA
cells (NA cells are padded with NaN).  The assignment to the two names
`['latitude', 'longitude']` on line 36 raises unless this is exactly 2.
(The empty batch is modelled as succeeding; no claim involves it.) -/
def geoWidth (rs : List RawRow) : Nat :=
  let ls := rs.filterMap
    (fun r => r.geocoded.map (fun s => (splitCharOn ' ' (pySlice7 s)).length))
  match ls with
  | [] => 2
  | _ => ls.foldl max 0

/-- Lines 27-38 applied to one row (NA/None conversion, sentinel
replacement on the numeric columns, coordinates from the geocoded split). -/
def normRow (r : RawRow) (la lo : Option ℚ) : NormRow :=
  { hospital_pk := r.hospital_pk
    state := r.state
    hospital_name := r.hospital_name
    city := r.city
    zip := r.zip
    fips_code := replaceSentinel r.fips_code
    latitude := la
    longitude := lo
    collection_week := r.collection_week
    metrics := r.metrics.map replaceSentinel }

/-- Row-wise normalization of the batch; the first failing geocoded
component aborts everything (which row surfaces the error first is
immaterial: `astype(float)` raises column-wise, and the error value is
never consumed). -/
def normRows : List RawRow → Except String (List NormRow)
  | [] => .ok []
  | r :: rs =>
    match parseGeoRow r.geocoded with
    | .error e => .error e
    | .ok p =>
      match normRows rs with
      | .error e => .error e
      | .ok ns => .ok (normRow r p.1 p.2 :: ns)

/-- Lines 27-44 over the whole batch.  Any error (wrong split width, a
component `astype(float)` cannot convert) is an uncaught exception: the
script dies and nothing is committed. -/
def normalizeBatch (rs : List RawRow) : Except String (List NormRow) :=
  if geoWidth rs ≠ 2 then .error "Columns must be same length as key"
  else normRows rs

/-- Line 41: `drop_duplicates(subset='hospital_pk')`, keeping the first
occurrence of each `hospital_pk`. -/
def dropDupAux (seen : List String) : List NormRow → List NormRow
  | [] => []
  | r :: rs =>
    if seen.contains r.hospital_pk then dropDupAux seen rs
    else r :: dropDupAux (r.hospital_pk :: seen) rs

/-- Line 41, entry point. -/
def dropDupByPk (rs : List NormRow) : List NormRow := dropDupAux [] rs

/-! ## Relational model of the four tables

The schema DDL is not part of the repository sources; the table shapes are
those the INSERT/SELECT statements of the two loaders address, with the
natural keys named by the statements themselves (`ON CONFLICT (city, state,
zip_code, latitude, longitude)`, `ON CONFLICT (hospital_pk)`).  SQL
comparison semantics are standard PostgreSQL: a unique index treats NULLs
as distinct, and `NULL = NULL` is unknown, never true, in a `WHERE`. -/

/-- A row of `location` (without its surrogate id): the columns of the
INSERT on lines 54-59.  `city`/`state`/`zip` are text, coordinates and
fips are nullable (the fips column is carried as the numeric value the
loader passes). -/
structure LocTuple where
  city : String
  state : String
  zip : String
  latitude : Option ℚ
  longitude : Option ℚ
  fips : Option ℚ
deriving DecidableEq

/-- The `location` table: surrogate id paired with the tuple, in insertion
order. -/
abbrev LocTable := List (Nat × LocTuple)

/-- SQL equality on a nullable column, restricted to the only case where it
is TRUE: both sides non-null and equal.  This is simultaneously
(a) the match condition of a unique index with the default NULLS DISTINCT
behaviour (two NULLs never collide), and (b) the TRUE case of the
three-valued `=` in a `WHERE` clause (a NULL comparison is unknown, and an
unknown row is not returned). -/
def sqlEqTrue (a b : Option ℚ) : Bool :=
  match a, b with
  | some x, some y => x == y
  | _, _ => false

/-- Conflict test of `ON CONFLICT (city, state, zip_code, latitude,
longitude) DO NOTHING` (lines 54-59): the five index columns collide;
`fips_code` is NOT part of the conflict target. -/
def locConflicts (u t : LocTuple) : Bool :=
  (u.city == t.city) && (u.state == t.state) && (u.zip == t.zip)
    && sqlEqTrue u.latitude t.latitude && sqlEqTrue u.longitude t.longitude

/-- Next surrogate id used for a fresh `location` row. -/
def nextLocId (tbl : LocTable) : Nat :=
  tbl.foldl (fun m p => max m p.1) 0 + 1

/-- One `INSERT INTO location ... ON CONFLICT ... DO NOTHING`. -/
def locInsert (tbl : LocTable) (t : LocTuple) : LocTable :=
  if tbl.any (fun p => locConflicts p.2 t) then tbl
  else tbl ++ [(nextLocId tbl, t)]

/-- The `executemany` over the location batch (lines 47-59). -/
def locInsertMany (tbl : LocTable) (ts : List LocTuple) : LocTable :=
  ts.foldl locInsert tbl

/-- Row condition of the re-query on lines 68-73:
`(city, state, zip_code, latitude, longitude, fips_code) IN
(SELECT * FROM unnest(...))` — a table row is returned iff its six-column
tuple compares TRUE against some batch tuple; any NULL component makes the
comparison unknown, so the row is not returned. -/
def rowMatches (u q : LocTuple) : Bool :=
  (u.city == q.city) && (u.state == q.state) && (u.zip == q.zip)
    && sqlEqTrue u.latitude q.latitude && sqlEqTrue u.longitude q.longitude
    && sqlEqTrue u.fips q.fips

/-- The location-id re-query (lines 68-75): ids of the table rows matching
some tuple of the batch, in table order.  (SQL leaves the row order
unspecified; insertion order is the modelling assumption.) -/
def locQueryIds (tbl : LocTable) (qs : List LocTuple) : List Nat :=
  (tbl.filter (fun p => qs.any (fun q => rowMatches p.2 q))).map (fun p => p.1)

/-- A row of `hospital`: the columns of the INSERT on lines 81-88. -/
structure HospRow where
  pk : String
  hospital_name : String
  location_id : Option Nat
deriving DecidableEq

/-- One `INSERT INTO hospital ... ON CONFLICT (hospital_pk) DO NOTHING`. -/
def hospInsert (tbl : List HospRow) (r : HospRow) : List HospRow :=
  if tbl.any (fun u => u.pk == r.pk) then tbl else tbl ++ [r]

/-- The `executemany` over the hospital batch. -/
def hospInsertMany (tbl : List HospRow) (rs : List HospRow) : List HospRow :=
  rs.foldl hospInsert tbl

/-- Whether the hospital batch raises `ForeignKeyViolation` against the
current `location` table: some row carries a non-null `location_id` that no
location row has.  (A null reference is allowed by the FK.) -/
def hospFKviolation (loc : LocTable) (rs : List HospRow) : Bool :=
  rs.any (fun r =>
    match r.location_id with
    | some i => !(loc.any (fun p => p.1 == i))
    | none => false)

/-- The hospital_pk re-query (lines 96-101):
`(hospital_pk, hospital_name) IN unnest(pks, names)`; both columns are
non-null text, so this is plain pairwise equality against the zipped
arrays.  Result in table order. -/
def hospQuery (tbl : List HospRow) (pks names : List String) : List String :=
  (tbl.filter (fun u =>
    (pks.zip names).any (fun pn => (u.pk == pn.1) && (u.hospital_name == pn.2)))).map
    (fun u => u.pk)

/-- A row of `weekly_report`: collection week, the eight metric values (in
the tuple order of lines 104-114; the SQL column list on lines 128-135
names the metric columns in a different order, which permutes where each
value lands but not which values are stored), and the hospital reference. -/
structure WeeklyRow where
  collection_week : String
  metrics : List (Option ℚ)
  hospital_weekly_id : String
deriving DecidableEq

/-- Insert-time conversion on lines 115-127: a NaN metric becomes None.
On this model's `Option` values the NaN and None markers already coincide,
so the conversion maps `none` to `none` and keeps any real value. -/
def noneIfNaN : Option ℚ → Option ℚ
  | none => none
  | some v => some v

/-- The weekly fact built for one retained row and its resolved hospital
id (lines 104-127). -/
def factOf (r : NormRow) (hid : String) : WeeklyRow :=
  { collection_week := r.collection_week
    metrics := r.metrics.map noneIfNaN
    hospital_weekly_id := hid }

/-- Lines 104-127: `zip` of the retained rows' columns with the hospital
ids returned by the re-query; `zip` truncates to the shorter list. -/
def weeklyDataOf (rows : List NormRow) (hids : List String) : List WeeklyRow :=
  (rows.zip hids).map (fun p => factOf p.1 p.2)

/-- Whether the weekly batch raises `ForeignKeyViolation` against the
current `hospital` table. -/
def weeklyFKviolation (hosp : List HospRow) (wd : List WeeklyRow) : Bool :=
  wd.any (fun w => !(hosp.any (fun u => u.pk == w.hospital_weekly_id)))

/-- A row of `hospital_quality` (columns of the INSERT on lines 124-130 of
`load-quality.py`). -/
structure QualityRow where
  facility_id : String
  quality_rating : Option Nat
  rating_date : String
  ownership : String
  hospital_type : String
  provides_emergency_services : Bool
deriving DecidableEq

/-- The database: the four tables both loaders write to. -/
structure DB where
  loc : LocTable
  hosp : List HospRow
  weekly : List WeeklyRow
  quality : List QualityRow
deriving DecidableEq

/-- The empty database. -/
def emptyDB : DB := ⟨[], [], [], []⟩

/-! ## The weekly load (`load-hhs-old.py` 46-147)

The script runs over one connection with one implicit transaction;
`conn.rollback()` discards all uncommitted work of the run (location
inserts included) and the final `conn.commit()` persists whatever the
working state holds at that point.  The run is therefore modelled as a
pair (committed state, working state). -/

/-- Lines 77-79: `hospital_data`, the zip of pks and names with the
location ids returned by the re-query (`zip` truncates). -/
def hospDataOf (rows : List NormRow) (locIds : List Nat) : List HospRow :=
  (rows.zip locIds).map (fun p => ⟨p.1.hospital_pk, p.1.hospital_name, some p.2⟩)

/-- Lines 95-147: the script from the hospital-pk re-query onwards, given
the committed state and the current working state.  The weekly insert's
`except ForeignKeyViolation` prints and rolls back (discarding the whole
run's uncommitted work); the final `conn.commit()` then has nothing new to
persist.  Otherwise the commit persists the working state plus the new
facts. -/
def weeklyContinue (committed working : DB) (rows : List NormRow) : DB :=
  let hids := hospQuery working.hosp (rows.map (fun r => r.hospital_pk))
    (rows.map (fun r => r.hospital_name))
  let wd := weeklyDataOf rows hids
  if weeklyFKviolation working.hosp wd then committed
  else { working with weekly := working.weekly ++ wd }

/-- Lines 80-147: the script from the hospital insert onwards.  On
`ForeignKeyViolation` the handler prints and calls `conn.rollback()` —
and execution then CONTINUES with the re-query, the weekly insert and the
final commit, now against the committed state. -/
def weeklyRunFromHosp (committed w1 : DB) (rows : List NormRow)
    (hd : List HospRow) : DB :=
  if hospFKviolation w1.loc hd then
    weeklyContinue committed committed rows
  else
    weeklyContinue committed { w1 with hosp := hospInsertMany w1.hosp hd } rows

/-- Lines 46-147: location inserts, location-id re-query, then the rest of
the run.  In the script itself `hospital_data` is always the zip computed
on lines 77-79; `weeklyRunFromHosp` exposes it as an argument because the
spec's foreign-key scenario arises only from a dangling reference produced
upstream. -/
def weeklyRunPhases (committed : DB) (rows : List NormRow) : DB :=
  let w1 := { committed with
    loc := locInsertMany committed.loc (rows.map (fun r =>
      ⟨r.city, r.state, r.zip, r.latitude, r.longitude, r.fips_code⟩)) }
  let locIds := locQueryIds w1.loc (rows.map (fun r =>
    ⟨r.city, r.state, r.zip, r.latitude, r.longitude, r.fips_code⟩))
  weeklyRunFromHosp committed w1 rows (hospDataOf rows locIds)

/-- The location tuple of a normalized row (lines 47-53; the
`np.isnan`-to-None conversions are identities on this model). -/
def locTupleOf (r : NormRow) : LocTuple :=
  ⟨r.city, r.state, r.zip, r.latitude, r.longitude, r.fips_code⟩

/-- The whole weekly script on one CSV batch: normalization (a failure
there is an uncaught exception — the run dies with nothing committed),
dedup by `hospital_pk`, then the database phases. -/
def weeklyRun (db : DB) (batch : List RawRow) : DB :=
  match normalizeBatch batch with
  | .error _ => db
  | .ok nrows => weeklyRunPhases db (dropDupByPk nrows)

/-! ## The quality load (`load-quality.py`) -/

/-- Lines 133-149: `parse_quality_rating`.  Empty or (stripped)
"Not Available" is None; a digit-only string parses as an integer;
anything else, or a value outside [1,5], is None. -/
def parse_quality_rating (value : String) : Option Nat :=
  if value.isEmpty || pyStrip value = "Not Available" then none
  else
    match (if pyIsdigit value then some (strToNat value) else none) with
    | some r => if r < 1 || r > 5 then none else some r
    | none => none

/-- Lines 152-163: `parse_boolean` — case-insensitive stripped "yes". -/
def parse_boolean (value : String) : Bool :=
  if value.isEmpty then false
  else pyLower (pyStrip value) == "yes"

/-- One row of the quality CSV (the columns read on lines 96-103). -/
structure QRow where
  facility_id : String
  facility_name : String
  city : String
  state : String
  zip : String
  ownership : String
  emergency : String
  hospital_type : String
  rating : String
deriving DecidableEq

/-- A row of the quality CSV as the loop sees it: either its fields, or a
row whose processing raises (e.g. a `KeyError` from a missing required
column) — any such exception is re-raised by the loop after logging. -/
inductive QInput where
  | ok (r : QRow)
  | bad
deriving DecidableEq

/-- Lines 109-122 of `load-quality.py`: the location insert used for a
newly discovered facility — only city/state/zip, so latitude, longitude
and fips are NULL; `ON CONFLICT DO NOTHING ... RETURNING id` yields the
new id when a row was inserted and nothing (rowcount 0, hence None)
when the insert was skipped. -/
def locInsertQ (tbl : LocTable) (t : LocTuple) : LocTable × Option Nat :=
  if tbl.any (fun p => locConflicts p.2 t) then (tbl, none)
  else (tbl ++ [(nextLocId tbl, t)], some (nextLocId tbl))

/-- Lines 84-130: `process_and_insert_row`.  If the facility id is absent
from `hospital`, backfill a best-effort location and the hospital row;
then unconditionally insert the `hospital_quality` fact.  There is no
commit anywhere in this function. -/
def process_and_insert_row (db : DB) (r : QRow) (rating_date : String) : DB :=
  let present := db.hosp.any (fun u => u.pk == r.facility_id)
  let db1 :=
    if present then db
    else
      let li := locInsertQ db.loc ⟨r.city, r.state, r.zip, none, none, none⟩
      { db with
        loc := li.1
        hosp := hospInsert db.hosp ⟨r.facility_id, r.facility_name, li.2⟩ }
  { db1 with quality := db1.quality ++
      [⟨r.facility_id, parse_quality_rating r.rating, rating_date,
        r.ownership, r.hospital_type, parse_boolean r.emergency⟩] }

/-- The row loop of `main` (lines 53-66): rows are processed in order in
one transaction; the first raising row aborts the loop (the inner handler
logs and re-raises), yielding no final state. -/
def qualityProcessAll (working : DB) (rating_date : String) :
    List QInput → Option DB
  | [] => some working
  | .ok r :: rest =>
    qualityProcessAll (process_and_insert_row working r rating_date)
      rating_date rest
  | .bad :: _ => none

/-- Lines 53-81: the whole quality load.  One transaction for the file:
`conn.commit()` once after the loop, `conn.rollback()` in the outer
handler — so a failing row discards the entire file's work, the
backfilled hospital/location rows included. -/
def qualityRun (committed : DB) (rating_date : String)
    (inputs : List QInput) : DB :=
  match qualityProcessAll committed rating_date inputs with
  | some working => working
  | none => committed

/-! ## Concrete inputs used to settle the claims -/

/-- Decidability of equality of normalization results. -/
instance {ε α : Type} [DecidableEq ε] [DecidableEq α] :
    DecidableEq (Except ε α) := fun a b =>
  match a, b with
  | .ok x, .ok y =>
    if h : x = y then .isTrue (by rw [h]) else .isFalse (by simp [h])
  | .error e, .error f =>
    if h : e = f then .isTrue (by rw [h]) else .isFalse (by simp [h])
  | .ok _, .error _ => .isFalse (by simp)
  | .error _, .ok _ => .isFalse (by simp)

/-- The weekly row of the spec's end-to-end scenario (section 8), with a
well-formed geocoded point and a non-null fips code. -/
def exRow : RawRow :=
  { hospital_pk := "1001"
    state := "IL"
    hospital_name := "General"
    address := "1 Main St"
    city := "Springfield"
    zip := "62701"
    fips_code := some (mkRat 17167 1)
    geocoded := some "POINT (-100.25 39.5)"
    collection_week := "2022-03-01"
    metrics := [some (mkRat 50 1), some (mkRat 10 1), some (mkRat 20 1),
      some (mkRat 30 1), some (mkRat 5 1), some (mkRat 8 1),
      some (mkRat 3 1), some (mkRat 1 1)] }

/-- A second weekly row for the same hospital, one collection week later. -/
def exRowWeek2 : RawRow := { exRow with collection_week := "2022-03-08" }

/-- A weekly row of a different hospital whose geocoded cell is absent
(pandas NA) and whose fips code is also missing. -/
def nullGeoRow : RawRow :=
  { hospital_pk := "H2"
    state := "KS"
    hospital_name := "Topeka Mercy"
    address := "2 Oak St"
    city := "Topeka"
    zip := "66601"
    fips_code := none
    geocoded := none
    collection_week := "2022-03-01"
    metrics := [none, none, none, none, none, none, none, none] }

/-- A weekly row of a third hospital whose geocoded cell is a malformed
point string: the two components are not decimal numerals. -/
def malGeoRow : RawRow :=
  { exRow with
    hospital_pk := "H3"
    hospital_name := "Bad Geo"
    geocoded := some "POINT (abc def)" }

/-- A location tuple whose latitude, longitude and fips are all NULL. -/
def nullLocTuple : LocTuple := ⟨"Springfield", "IL", "62701", none, none, none⟩

/-- A quality-CSV row for a facility absent from the weekly data. -/
def exQRow : QRow :=
  { facility_id := "F1"
    facility_name := "Ames Community"
    city := "Ames"
    state := "IA"
    zip := "50010"
    ownership := "Government"
    emergency := "Yes"
    hospital_type := "Acute Care"
    rating := "4" }

/-- The location row referenced by `preHosp`. -/
def preLocTuple : LocTuple :=
  ⟨"Springfield", "IL", "62701", some (mkRat (-401) 4), some (mkRat 79 2),
    some (mkRat 17167 1)⟩

/-- A committed database holding one location and one hospital from an
earlier load. -/
def preDB : DB := ⟨[(1, preLocTuple)], [⟨"1001", "General", some 1⟩], [], []⟩

/-- The normalized form of `exRow` (checked against `normalizeBatch` in
the theorems below). -/
def exNorm : NormRow :=
  { hospital_pk := "1001"
    state := "IL"
    hospital_name := "General"
    city := "Springfield"
    zip := "62701"
    fips_code := some (mkRat 17167 1)
    latitude := some (mkRat (-401) 4)
    longitude := some (mkRat 79 2)
    collection_week := "2022-03-01"
    metrics := [some (mkRat 50 1), some (mkRat 10 1), some (mkRat 20 1),
      some (mkRat 30 1), some (mkRat 5 1), some (mkRat 8 1),
      some (mkRat 3 1), some (mkRat 1 1)] }

/-- A hospital batch carrying a dangling location reference (id 99 exists
in no location table used below) — the spec's scenario of a foreign-key
violation produced by a dangling reference from upstream. -/
def danglingHosp : List HospRow := [⟨"H9", "Dangling", some 99⟩]

/-- `exNorm` with the later collection week. -/
def exNormW2 : NormRow := { exNorm with collection_week := "2022-03-08" }

/-- A raw weekly row whose first metric cell holds the -999999 sentinel. -/
def sentinelRow : RawRow :=
  { exRow with metrics := [some sentinel, some (mkRat 10 1), none, none,
      none, none, none, none] }

/-- The working state of the weekly run over `preDB` after the location
phase on the single row `exNorm` (whose tuple already exists, so the
insert is skipped). -/
def w1Pre : DB := { preDB with loc := locInsertMany preDB.loc [locTupleOf exNorm] }

/-! ## Supporting lemmas -/

/-- An element of `dropWhile p l` is an element of `l`. -/
theorem mem_of_mem_dropWhileChar (p : Char → Bool) (l : List Char) (a : Char)
    (h : a ∈ l.dropWhile p) : a ∈ l := by
  induction l with
  | nil => simp at h
  | cons b t ih =>
    rw [List.dropWhile_cons] at h
    by_cases hb : p b = true
    · simp only [hb, if_true] at h
      exact List.mem_cons_of_mem _ (ih h)
    · simp only [hb, if_false] at h
      exact h

/-- A digit-only string does not strip to "Not Available". -/
theorem pyIsdigit_strip_ne (s : String) (h : pyIsdigit s = true) :
    pyStrip s ≠ "Not Available" := by
  intro he
  have hN : 'N' ∈ (pyStrip s).toList := by rw [he]; decide
  have h1 : (pyStrip s).toList
      = ((s.toList.dropWhile Char.isWhitespace).reverse.dropWhile
          Char.isWhitespace).reverse := rfl
  rw [h1, List.mem_reverse] at hN
  have h2 := mem_of_mem_dropWhileChar _ _ _ hN
  rw [List.mem_reverse] at h2
  have h3 := mem_of_mem_dropWhileChar _ _ _ h2
  unfold pyIsdigit at h
  rw [Bool.and_eq_true] at h
  have hd : Char.isDigit 'N' = true := List.all_eq_true.mp h.2 _ h3
  simp at hd

/-- A digit-only string is not empty. -/
theorem pyIsdigit_ne_empty (s : String) (h : pyIsdigit s = true) :
    s.isEmpty = false := by
  unfold pyIsdigit at h
  rw [Bool.and_eq_true] at h
  simpa using h.1

/-- Characterization of `parse_quality_rating`: it returns `some k`
exactly for digit-only strings whose value `k` lies in [1,5]. -/
theorem parse_quality_rating_iff (s : String) (k : Nat) :
    parse_quality_rating s = some k ↔
      (pyIsdigit s = true ∧ strToNat s = k ∧ 1 ≤ k ∧ k ≤ 5) := by
  unfold parse_quality_rating
  by_cases hd : pyIsdigit s = true
  · have he : s.isEmpty = false := pyIsdigit_ne_empty s hd
    have hna : pyStrip s ≠ "Not Available" := pyIsdigit_strip_ne s hd
    rw [if_neg (by simp [he, hna]), if_pos hd]
    show (if strToNat s < 1 || strToNat s > 5 then none else some (strToNat s))
        = some k ↔ _
    by_cases hr : (strToNat s < 1 || strToNat s > 5) = true
    · rw [if_pos hr]
      simp only [Bool.or_eq_true, decide_eq_true_eq] at hr
      constructor
      · intro hc; exact absurd hc (by simp)
      · rintro ⟨-, hk, h1, h5⟩; omega
    · rw [if_neg hr]
      simp only [Bool.or_eq_true, decide_eq_true_eq, not_or, not_lt] at hr
      constructor
      · intro hc
        have hk : strToNat s = k := by simpa using hc
        exact ⟨hd, hk, by omega, by omega⟩
      · rintro ⟨-, hk, -, -⟩; rw [hk]
  · have hd' : pyIsdigit s = false := by simpa using hd
    rw [hd']
    show (if s.isEmpty || pyStrip s = "Not Available" then none
        else (none : Option Nat)) = some k ↔ _
    rw [ite_self]
    simp [hd']

/-- `drop_duplicates` keeps only the first of two rows sharing a
`hospital_pk`. -/
theorem dropDupByPk_pair (r1 r2 : NormRow) (h : r2.hospital_pk = r1.hospital_pk) :
    dropDupByPk [r1, r2] = [r1] := by
  simp [dropDupByPk, dropDupAux, h]

/-- Every row kept by the dedup comes from the input batch. -/
theorem dropDupAux_subset (seen : List String) (l : List NormRow) :
    ∀ r ∈ dropDupAux seen l, r ∈ l := by
  induction l generalizing seen with
  | nil => intro r hr; simp [dropDupAux] at hr
  | cons a l ih =>
    intro r hr
    unfold dropDupAux at hr
    split at hr
    · exact List.mem_cons_of_mem _ (ih seen r hr)
    · rcases List.mem_cons.mp hr with rfl | h
      · simp
      · exact List.mem_cons_of_mem _ (ih _ r h)

/-- The full run over one resolvable row (non-null coordinates and fips)
starting from the empty database: one location, one hospital, one fact. -/
theorem weeklyRunPhases_single (r : NormRow) (la lo f : ℚ)
    (hla : r.latitude = some la) (hlo : r.longitude = some lo)
    (hf : r.fips_code = some f) :
    weeklyRunPhases emptyDB [r] =
      { loc := [(1, locTupleOf r)]
        hosp := [⟨r.hospital_pk, r.hospital_name, some 1⟩]
        weekly := [factOf r r.hospital_pk]
        quality := [] } := by
  simp [weeklyRunPhases, weeklyRunFromHosp, weeklyContinue, locInsertMany,
    locInsert, locQueryIds, rowMatches, sqlEqTrue, hospDataOf, hospFKviolation,
    hospInsertMany, hospInsert, hospQuery, weeklyDataOf, weeklyFKviolation,
    nextLocId, locTupleOf, emptyDB, hla, hlo, hf, factOf]

/-- Normalization of any batch containing `malGeoRow` fails. -/
theorem normalizeBatch_mal_fails (g : RawRow) :
    ∀ l, normalizeBatch [g, malGeoRow] ≠ Except.ok l := by
  intro l
  unfold normalizeBatch
  by_cases hw : geoWidth [g, malGeoRow] = 2
  · rw [if_neg (by simp [hw])]
    show normRows [g, malGeoRow] ≠ .ok l
    have hmal : parseGeoRow malGeoRow.geocoded
        = .error "could not convert string to float" := by decide
    cases hg : parseGeoRow g.geocoded with
    | error e => simp [normRows, hg]
    | ok p => simp [normRows, hg, hmal]
  · rw [if_pos (by simp [hw])]
    simp

/-- When the row loop hits a raising row, no final state is produced. -/
theorem qualityProcessAll_of_bad (rd : String) :
    ∀ (inputs : List QInput) (w : DB), QInput.bad ∈ inputs →
      qualityProcessAll w rd inputs = none := by
  intro inputs
  induction inputs with
  | nil => intro w h; simp at h
  | cons a rest ih =>
    intro w h
    cases a with
    | ok r =>
      have hrest : QInput.bad ∈ rest := by
        rcases List.mem_cons.mp h with h' | h'
        · exact absurd h' (by simp)
        · exact h'
      simp [qualityProcessAll, ih _ hrest]
    | bad => simp [qualityProcessAll]

/-- Rows already stored keep their membership across an insert. -/
theorem locInsert_mem {u : Nat × LocTuple} {tbl : LocTable} {t : LocTuple}
    (h : u ∈ tbl) : u ∈ locInsert tbl t := by
  unfold locInsert
  split
  · exact h
  · exact List.mem_append_left _ h

/-- Rows already stored keep their membership across a batch insert. -/
theorem locInsertMany_mem {u : Nat × LocTuple} {tbl : LocTable}
    {ts : List LocTuple} (h : u ∈ tbl) : u ∈ locInsertMany tbl ts := by
  induction ts generalizing tbl with
  | nil => exact h
  | cons a ts ih => exact ih (locInsert_mem h)

/-- A tuple with non-null coordinates collides with itself under the
conflict target. -/
theorem locConflicts_refl {t : LocTuple} (hla : t.latitude ≠ none)
    (hlo : t.longitude ≠ none) : locConflicts t t = true := by
  obtain ⟨la, hla'⟩ := Option.ne_none_iff_exists'.mp hla
  obtain ⟨lo, hlo'⟩ := Option.ne_none_iff_exists'.mp hlo
  simp [locConflicts, sqlEqTrue, hla', hlo']

/-- An insert that collides with a stored row is skipped. -/
theorem locInsert_skip {tbl : LocTable} {t : LocTuple}
    (h : ∃ u ∈ tbl, locConflicts u.2 t = true) : locInsert tbl t = tbl := by
  unfold locInsert
  rw [if_pos]
  rw [List.any_eq_true]
  obtain ⟨u, hu, hc⟩ := h
  exact ⟨u, hu, hc⟩

/-- After a batch insert, every batch tuple with non-null coordinates has
a colliding row in the table. -/
theorem locInsertMany_covers {ts : List LocTuple}
    (hc : ∀ t ∈ ts, t.latitude ≠ none ∧ t.longitude ≠ none) :
    ∀ tbl, ∀ t ∈ ts, ∃ u ∈ locInsertMany tbl ts, locConflicts u.2 t = true := by
  induction ts with
  | nil => intro tbl t ht; simp at ht
  | cons a ts ih =>
    intro tbl t ht
    rcases List.mem_cons.mp ht with rfl | hts
    · have hstep : locInsertMany tbl (t :: ts)
          = locInsertMany (locInsert tbl t) ts := rfl
      by_cases ha : tbl.any (fun p => locConflicts p.2 t) = true
      · obtain ⟨u, hu, huc⟩ := List.any_eq_true.mp ha
        refine ⟨u, ?_, huc⟩
        rw [hstep]
        exact locInsertMany_mem (locInsert_mem hu)
      · have hself := locConflicts_refl (hc t (by simp)).1 (hc t (by simp)).2
        refine ⟨(nextLocId tbl, t), ?_, hself⟩
        have hmem : (nextLocId tbl, t) ∈ locInsert tbl t := by
          unfold locInsert
          rw [if_neg ha]
          exact List.mem_append_right _ (by simp)
        rw [hstep]
        exact locInsertMany_mem hmem
    · exact ih (fun x hx => hc x (List.mem_cons_of_mem _ hx)) (locInsert tbl a) t hts

/-- A batch insert all of whose tuples already collide is a no-op. -/
theorem locInsertMany_skip {ts : List LocTuple} :
    ∀ {tbl : LocTable}, (∀ t ∈ ts, ∃ u ∈ tbl, locConflicts u.2 t = true) →
      locInsertMany tbl ts = tbl := by
  induction ts with
  | nil => intro tbl h; rfl
  | cons a ts ih =>
    intro tbl h
    have ha : locInsert tbl a = tbl := locInsert_skip (h a (by simp))
    show locInsertMany (locInsert tbl a) ts = tbl
    rw [ha]
    exact ih (fun t ht => h t (List.mem_cons_of_mem _ ht))

/-- Every id returned by the location re-query is the id of a stored row. -/
theorem locQueryIds_mem {tbl : LocTable} {qs : List LocTuple} {i : Nat}
    (h : i ∈ locQueryIds tbl qs) : ∃ u ∈ tbl, u.1 = i := by
  unfold locQueryIds at h
  obtain ⟨u, hu, hui⟩ := List.mem_map.mp h
  exact ⟨u, List.mem_of_mem_filter hu, hui⟩

/-- Every hospital-batch row carries an id from the re-query result. -/
theorem hospDataOf_mem {rows : List NormRow} {locIds : List Nat} {r : HospRow}
    (h : r ∈ hospDataOf rows locIds) : ∃ i ∈ locIds, r.location_id = some i := by
  unfold hospDataOf at h
  obtain ⟨⟨x, i⟩, hp, hr⟩ := List.mem_map.mp h
  refine ⟨i, (List.of_mem_zip hp).2, ?_⟩
  rw [← hr]

/-- The hospital batch built from the location re-query of the same table
never violates the foreign key. -/
theorem hospFK_query_false (loc : LocTable) (rows : List NormRow)
    (qs : List LocTuple) :
    hospFKviolation loc (hospDataOf rows (locQueryIds loc qs)) = false := by
  unfold hospFKviolation
  rw [List.any_eq_false]
  intro r hr
  obtain ⟨i, hi, hloc⟩ := hospDataOf_mem hr
  obtain ⟨u, hu, hui⟩ := locQueryIds_mem hi
  rw [hloc]
  simp only [Bool.not_eq_true', Bool.not_eq_false]
  rw [List.any_eq_true]
  exact ⟨u, hu, by simp [hui]⟩

/-- Rows already stored keep their membership across a hospital insert. -/
theorem hospInsert_mem {u : HospRow} {tbl : List HospRow} {r : HospRow}
    (h : u ∈ tbl) : u ∈ hospInsert tbl r := by
  unfold hospInsert
  split
  · exact h
  · exact List.mem_append_left _ h

/-- Rows already stored keep their membership across a batch insert. -/
theorem hospInsertMany_mem {u : HospRow} {tbl rs : List HospRow}
    (h : u ∈ tbl) : u ∈ hospInsertMany tbl rs := by
  induction rs generalizing tbl with
  | nil => exact h
  | cons a rs ih => exact ih (hospInsert_mem h)

/-- After a hospital batch insert, every batch pk is present. -/
theorem hospInsertMany_covers {rs : List HospRow} :
    ∀ tbl, ∀ r ∈ rs, ∃ u ∈ hospInsertMany tbl rs, u.pk = r.pk := by
  induction rs with
  | nil => intro tbl r hr; simp at hr
  | cons a rs ih =>
    intro tbl r hr
    rcases List.mem_cons.mp hr with rfl | hrs
    · have hstep : hospInsertMany tbl (r :: rs)
          = hospInsertMany (hospInsert tbl r) rs := rfl
      by_cases ha : tbl.any (fun u => u.pk == r.pk) = true
      · obtain ⟨u, hu, huc⟩ := List.any_eq_true.mp ha
        refine ⟨u, ?_, by simpa using huc⟩
        rw [hstep]
        exact hospInsertMany_mem (hospInsert_mem hu)
      · refine ⟨r, ?_, rfl⟩
        have hmem : r ∈ hospInsert tbl r := by
          unfold hospInsert
          rw [if_neg ha]
          exact List.mem_append_right _ (by simp)
        rw [hstep]
        exact hospInsertMany_mem hmem
    · exact ih (hospInsert tbl a) r hrs

/-- A hospital insert whose pk is already present is skipped. -/
theorem hospInsert_skip {tbl : List HospRow} {r : HospRow}
    (h : ∃ u ∈ tbl, u.pk = r.pk) : hospInsert tbl r = tbl := by
  unfold hospInsert
  rw [if_pos]
  rw [List.any_eq_true]
  obtain ⟨u, hu, hc⟩ := h
  exact ⟨u, hu, by simp [hc]⟩

/-- A hospital batch insert all of whose pks are present is a no-op. -/
theorem hospInsertMany_skip {rs : List HospRow} :
    ∀ {tbl : List HospRow}, (∀ r ∈ rs, ∃ u ∈ tbl, u.pk = r.pk) →
      hospInsertMany tbl rs = tbl := by
  induction rs with
  | nil => intro tbl h; rfl
  | cons a rs ih =>
    intro tbl h
    have ha : hospInsert tbl a = tbl := hospInsert_skip (h a (by simp))
    show hospInsertMany (hospInsert tbl a) rs = tbl
    rw [ha]
    exact ih (fun r hr => h r (List.mem_cons_of_mem _ hr))

/-- Every pk returned by the hospital re-query is the pk of a stored row. -/
theorem hospQuery_mem {tbl : List HospRow} {pks names : List String} {p : String}
    (h : p ∈ hospQuery tbl pks names) : ∃ u ∈ tbl, u.pk = p := by
  unfold hospQuery at h
  obtain ⟨u, hu, hup⟩ := List.mem_map.mp h
  exact ⟨u, List.mem_of_mem_filter hu, hup⟩

/-- Every weekly fact's hospital id comes from the re-query result. -/
theorem weeklyDataOf_mem {rows : List NormRow} {hids : List String}
    {w : WeeklyRow} (h : w ∈ weeklyDataOf rows hids) :
    w.hospital_weekly_id ∈ hids := by
  unfold weeklyDataOf at h
  obtain ⟨⟨x, i⟩, hp, hw⟩ := List.mem_map.mp h
  rw [← hw]
  exact (List.of_mem_zip hp).2

/-- The weekly batch built from the hospital re-query of the same table
never violates the foreign key. -/
theorem weeklyFK_query_false (hosp : List HospRow) (rows : List NormRow)
    (pks names : List String) :
    weeklyFKviolation hosp (weeklyDataOf rows (hospQuery hosp pks names))
      = false := by
  unfold weeklyFKviolation
  rw [List.any_eq_false]
  intro w hw
  obtain ⟨u, hu, hup⟩ := hospQuery_mem (weeklyDataOf_mem hw)
  simp only [Bool.not_eq_true', Bool.not_eq_false]
  rw [List.any_eq_true]
  exact ⟨u, hu, by simp [hup]⟩

/-- Closed form of one weekly run: since the hospital and weekly batches
are built from re-queries of the tables they are checked against, neither
foreign-key handler fires, and the run is the three inserts in sequence
followed by the commit. -/
theorem weeklyRunPhases_closed (committed : DB) (rows : List NormRow) :
    weeklyRunPhases committed rows =
      { loc := locInsertMany committed.loc (rows.map locTupleOf)
        hosp := hospInsertMany committed.hosp
          (hospDataOf rows
            (locQueryIds (locInsertMany committed.loc (rows.map locTupleOf))
              (rows.map locTupleOf)))
        weekly := committed.weekly ++ weeklyDataOf rows
          (hospQuery
            (hospInsertMany committed.hosp
              (hospDataOf rows
                (locQueryIds
                  (locInsertMany committed.loc (rows.map locTupleOf))
                  (rows.map locTupleOf))))
            (rows.map (fun r => r.hospital_pk))
            (rows.map (fun r => r.hospital_name)))
        quality := committed.quality } := by
  unfold weeklyRunPhases weeklyRunFromHosp weeklyContinue locTupleOf
  dsimp only
  simp only [hospFK_query_false, weeklyFK_query_false, Bool.false_eq_true,
    if_false]

/-! ## Theorems settling the claims -/

/-- C1.  The claim states that two tuples with coincident nulls resolve to
the same location identifier: nulls would have to compare equal for the
conflict-skip insert and for the re-query.  The code does the opposite:
with the all-null-coordinates tuple already stored under id 1, the
re-query of lines 68-75 (`(...) IN (SELECT * FROM unnest(...))`) returns
NO identifier for the very same tuple (NULL = NULL is unknown in SQL),
and the conflict-skip insert of lines 54-59 inserts a second copy of the
tuple rather than skipping it (a unique index treats NULLs as distinct).
This is the failing input demonstrating the code bug against the spec's
explicit null-equality requirement. -/
theorem C1_null_tuple_not_deduplicated :
    locQueryIds [(1, nullLocTuple)] [nullLocTuple] = [] ∧
    locInsert [(1, nullLocTuple)] nullLocTuple
      = [(1, nullLocTuple), (2, nullLocTuple)] := by decide

/-- C2 counterexample.  Two input rows for the same hospital with
different collection weeks do NOT each produce a fact row: the
`drop_duplicates(subset='hospital_pk')` on line 41 keeps only the first,
so one fact row is inserted, not two. -/
theorem C2_counterexample :
    (weeklyRun emptyDB [exRow, exRowWeek2]).weekly.length = 1 ∧
    ¬ (weeklyRun emptyDB [exRow, exRowWeek2]).weekly.length = 2 := by decide

/-- C3 counterexample.  A run over a committed database that already
holds hospital 1001: the hospital batch carries a dangling location
reference, so its insert raises `ForeignKeyViolation`; the handler prints
and rolls back — and the script then CONTINUES: the weekly insert built
against the committed state is persisted by the final commit.  The claim
that the run is aborted with no later insert committed is false. -/
theorem C3_counterexample :
    hospFKviolation w1Pre.loc danglingHosp = true ∧
    weeklyRunFromHosp preDB w1Pre [exNorm] danglingHosp
      = { preDB with weekly := [factOf exNorm "1001"] } := by decide

/-- C4 counterexample.  The quality loader holds NO early commit: with a
file whose first row introduces a new facility and whose second row
raises, the whole file is rolled back — the newly inserted hospital and
location rows do NOT remain persisted (the single-row run shows they
would have been inserted had the run succeeded). -/
theorem C4_counterexample :
    qualityRun emptyDB "2021-07-01" [QInput.ok exQRow, QInput.bad] = emptyDB ∧
    (qualityRun emptyDB "2021-07-01" [QInput.ok exQRow]).hosp.length = 1 ∧
    (qualityRun emptyDB "2021-07-01" [QInput.ok exQRow]).loc.length = 1 := by decide

/-- C6.  The geocoded string is `POINT (<lon> <lat>)` (WKT order:
longitude first), but lines 35-38 assign the FIRST split component to the
`latitude` column: for the real-world point `POINT (-122.4194 37.7749)`
(San Francisco: longitude -122.4194, latitude 37.7749) the code stores
latitude = -122.4194 — an impossible latitude — and longitude = 37.7749.
The first projection of `parseGeoRow` is the value assigned to
`latitude`; end-to-end, the normalized row's `latitude` field carries the
longitude component. -/
theorem C6_point_components_swapped :
    parseGeoRow (some "POINT (-122.4194 37.7749)")
      = .ok (some (mkRat (-1224194) 10000), some (mkRat 377749 10000)) ∧
    (normalizeBatch [{ exRow with geocoded := some "POINT (-122.4194 37.7749)" }]).map
        (fun l => l.map (fun n => (n.latitude, n.longitude)))
      = .ok [(some (mkRat (-1224194) 10000), some (mkRat 377749 10000))] := by
  decide

/-- C7 counterexample.  A malformed geocoded point in one row is NOT a
row-level failure: with the malformed row present nothing at all is
loaded (the whole batch aborts before any insert), while the same good
row alone loads one fact. -/
theorem C7_counterexample :
    weeklyRun emptyDB [exRow, malGeoRow] = emptyDB ∧
    (weeklyRun emptyDB [exRow]).weekly.length = 1 := by decide

/-- C8 counterexample.  Loading the same file twice does NOT leave the
Location row count unchanged when a row has null coordinates: the
conflict target never fires for NULLs, so the second load inserts the
null-coordinate tuple again (2 location rows after the first load, 3
after the second). -/
theorem C8_counterexample :
    (weeklyRun emptyDB [exRow, nullGeoRow]).loc.length = 2 ∧
    (weeklyRun (weeklyRun emptyDB [exRow, nullGeoRow]) [exRow, nullGeoRow]).loc.length
      = 3 := by decide

/-- C10 counterexample.  A row with an absent geocoded cell is stored in
`location` with null coordinates, but it is NOT loaded into `hospital`
or `weekly_report`: the location-id re-query cannot match the null
coordinates, so the row receives no identifier and the zips drop it. -/
theorem C10_counterexample :
    (weeklyRun emptyDB [exRow, nullGeoRow]).loc.map
        (fun p => (p.2.latitude, p.2.longitude))
      = [(some (mkRat (-401) 4), some (mkRat 79 2)), (none, none)] ∧
    (weeklyRun emptyDB [exRow, nullGeoRow]).hosp.map (fun h => h.pk) = ["1001"] ∧
    (weeklyRun emptyDB [exRow, nullGeoRow]).weekly.map
        (fun w => w.hospital_weekly_id) = ["1001"] := by decide

/-- C2 amended.  The weekly loader keeps only the FIRST row per
`hospital_pk` and inserts exactly one fact row for that retained row
(keyed by its hospital id and collection week); a second input row for
the same hospital — even with a different collection week — is dropped by
the dedup and produces no fact row. -/
theorem C2_amended (r1 r2 : NormRow) (la lo f : ℚ)
    (hpk : r2.hospital_pk = r1.hospital_pk)
    (hla : r1.latitude = some la) (hlo : r1.longitude = some lo)
    (hf : r1.fips_code = some f) :
    dropDupByPk [r1, r2] = [r1] ∧
    weeklyRunPhases emptyDB (dropDupByPk [r1, r2]) =
      { loc := [(1, locTupleOf r1)]
        hosp := [⟨r1.hospital_pk, r1.hospital_name, some 1⟩]
        weekly := [factOf r1 r1.hospital_pk]
        quality := [] } := by
  have hd := dropDupByPk_pair r1 r2 hpk
  exact ⟨hd, by rw [hd, weeklyRunPhases_single r1 la lo f hla hlo hf]⟩

/-- C2 amended, witnessed at the concrete two-week scenario. -/
theorem C2_amended_witness :
    dropDupByPk [exNorm, exNormW2] = [exNorm] ∧
    weeklyRunPhases emptyDB (dropDupByPk [exNorm, exNormW2]) =
      { loc := [(1, locTupleOf exNorm)]
        hosp := [⟨exNorm.hospital_pk, exNorm.hospital_name, some 1⟩]
        weekly := [factOf exNorm exNorm.hospital_pk]
        quality := [] } :=
  C2_amended exNorm exNormW2 (mkRat (-401) 4) (mkRat 79 2) (mkRat 17167 1)
    rfl rfl rfl rfl

/-- C3 amended.  When the hospital insert raises the foreign-key
violation, the handler does catch it and roll the in-flight transaction
back (this run's location and hospital work is discarded: the final
location and hospital tables are the committed ones) — but the run is NOT
aborted: execution continues with the hospital re-query, the weekly
insert and the final commit, now against the committed state. -/
theorem C3_amended (committed w1 : DB) (rows : List NormRow) (hd : List HospRow)
    (h : hospFKviolation w1.loc hd = true) :
    weeklyRunFromHosp committed w1 rows hd
      = weeklyContinue committed committed rows ∧
    (weeklyRunFromHosp committed w1 rows hd).loc = committed.loc ∧
    (weeklyRunFromHosp committed w1 rows hd).hosp = committed.hosp := by
  have h1 : weeklyRunFromHosp committed w1 rows hd
      = weeklyContinue committed committed rows := by
    unfold weeklyRunFromHosp
    simp [h]
  refine ⟨h1, ?_, ?_⟩ <;> rw [h1] <;> unfold weeklyContinue <;>
    dsimp only <;> split <;> rfl

/-- C3 amended, witnessed at the dangling-reference scenario. -/
theorem C3_amended_witness :
    hospFKviolation w1Pre.loc danglingHosp = true ∧
    (weeklyRunFromHosp preDB w1Pre [exNorm] danglingHosp).loc = preDB.loc ∧
    (weeklyRunFromHosp preDB w1Pre [exNorm] danglingHosp).hosp = preDB.hosp :=
  ⟨by decide, (C3_amended preDB w1Pre [exNorm] danglingHosp (by decide)).2.1,
    (C3_amended preDB w1Pre [exNorm] danglingHosp (by decide)).2.2⟩

/-- C4 amended.  The quality loader performs NO early commit: the file is
one transaction, committed once after the loop; any raising row rolls the
entire file back, so the backfilled hospital/location rows of earlier
rows do not survive a later failure (the load is atomic, not partial). -/
theorem C4_amended (committed : DB) (rd : String) (inputs : List QInput)
    (h : QInput.bad ∈ inputs) : qualityRun committed rd inputs = committed := by
  unfold qualityRun
  rw [qualityProcessAll_of_bad rd inputs committed h]

/-- C4 amended, witnessed on a file whose second row raises. -/
theorem C4_amended_witness :
    QInput.bad ∈ [QInput.ok exQRow, QInput.bad] ∧
    qualityRun preDB "2021-07-01" [QInput.ok exQRow, QInput.bad] = preDB :=
  ⟨by decide, C4_amended preDB "2021-07-01" _ (by decide)⟩

/-- C5.  A metric cell holding the -999999 sentinel is stored in the
weekly fact as null: `replace(-999999, np.nan)` (line 32) followed by the
NaN-to-None conversion at insert time (lines 115-127) maps it to None —
never to 0 and never to -999999. -/
theorem C5_sentinel_to_null (r : RawRow) (la lo : Option ℚ) (hid : String)
    (i : Nat) (h : r.metrics[i]? = some (some sentinel)) :
    (factOf (normRow r la lo) hid).metrics[i]? = some none ∧
    (factOf (normRow r la lo) hid).metrics[i]? ≠ some (some (mkRat 0 1)) ∧
    (factOf (normRow r la lo) hid).metrics[i]? ≠ some (some sentinel) := by
  have hm : (factOf (normRow r la lo) hid).metrics
      = (r.metrics.map replaceSentinel).map noneIfNaN := rfl
  have hg : (factOf (normRow r la lo) hid).metrics[i]? = some none := by
    rw [hm, List.getElem?_map, List.getElem?_map, h]
    simp [replaceSentinel, noneIfNaN]
  refine ⟨hg, ?_, ?_⟩ <;> rw [hg] <;> simp

/-- C5, witnessed at a concrete row whose first metric is the sentinel. -/
theorem C5_sentinel_to_null_witness :
    sentinelRow.metrics[0]? = some (some sentinel) ∧
    (factOf (normRow sentinelRow none none) "1001").metrics[0]? = some none :=
  ⟨by decide, (C5_sentinel_to_null sentinelRow none none "1001" 0 (by decide)).1⟩

/-- C7 amended.  A malformed geocoded point string is never silently
normalized to zero coordinates — but it is not a row-level error either:
it aborts the WHOLE batch.  For any database state and any other row,
running the loader on a batch containing the malformed row leaves the
database untouched, because normalization of the batch never succeeds. -/
theorem C7_amended (db : DB) (g : RawRow) :
    weeklyRun db [g, malGeoRow] = db ∧
    ∀ l, normalizeBatch [g, malGeoRow] ≠ Except.ok l := by
  refine ⟨?_, normalizeBatch_mal_fails g⟩
  unfold weeklyRun
  cases hn : normalizeBatch [g, malGeoRow] with
  | error e => rfl
  | ok l => exact absurd hn (normalizeBatch_mal_fails g l)

/-- C7 amended, witnessed at a concrete database and good row. -/
theorem C7_amended_witness : weeklyRun preDB [exRow, malGeoRow] = preDB :=
  (C7_amended preDB exRow).1

/-- C8 amended.  Loading the same weekly CSV twice leaves the Hospital
and Location row counts unchanged PROVIDED every normalized row has
non-null latitude and longitude (rows with null coordinates duplicate,
see the counterexample); the weekly facts are duplicated: the second run
adds exactly the facts the first run added.  Stated over any committed
starting state. -/
theorem C8_amended (committed : DB) (batch : List RawRow) (nrows : List NormRow)
    (hn : normalizeBatch batch = Except.ok nrows)
    (hcoord : ∀ r ∈ nrows, r.latitude ≠ none ∧ r.longitude ≠ none) :
    (weeklyRun (weeklyRun committed batch) batch).loc.length
        = (weeklyRun committed batch).loc.length ∧
    (weeklyRun (weeklyRun committed batch) batch).hosp.length
        = (weeklyRun committed batch).hosp.length ∧
    (weeklyRun (weeklyRun committed batch) batch).weekly.length
        + committed.weekly.length
      = 2 * (weeklyRun committed batch).weekly.length := by
  have hrun : ∀ db : DB,
      weeklyRun db batch = weeklyRunPhases db (dropDupByPk nrows) := by
    intro db; unfold weeklyRun; rw [hn]
  have hts : ∀ t ∈ (dropDupByPk nrows).map locTupleOf,
      t.latitude ≠ none ∧ t.longitude ≠ none := by
    intro t ht
    obtain ⟨r, hr, rfl⟩ := List.mem_map.mp ht
    exact hcoord r (dropDupAux_subset [] nrows r hr)
  rw [hrun, hrun, weeklyRunPhases_closed committed (dropDupByPk nrows),
    weeklyRunPhases_closed]
  have hT2 : locInsertMany
      (locInsertMany committed.loc ((dropDupByPk nrows).map locTupleOf))
      ((dropDupByPk nrows).map locTupleOf)
      = locInsertMany committed.loc ((dropDupByPk nrows).map locTupleOf) := by
    apply locInsertMany_skip
    intro t ht
    exact locInsertMany_covers hts committed.loc t ht
  simp only [hT2]
  have hH2 : ∀ hd : List HospRow,
      hospInsertMany (hospInsertMany committed.hosp hd) hd
        = hospInsertMany committed.hosp hd := by
    intro hd
    apply hospInsertMany_skip
    intro r hr
    exact hospInsertMany_covers committed.hosp r hr
  simp only [hH2]
  refine ⟨trivial, trivial, ?_⟩
  simp only [List.length_append]
  omega

/-- C8 amended, witnessed: the single-row file with non-null coordinates
loaded twice over `preDB`. -/
theorem C8_amended_witness :
    normalizeBatch [exRow] = Except.ok [exNorm] ∧
    (∀ r ∈ [exNorm], r.latitude ≠ none ∧ r.longitude ≠ none) ∧
    (weeklyRun (weeklyRun preDB [exRow]) [exRow]).loc.length
        = (weeklyRun preDB [exRow]).loc.length ∧
    (weeklyRun (weeklyRun preDB [exRow]) [exRow]).hosp.length
        = (weeklyRun preDB [exRow]).hosp.length :=
  ⟨by decide, by decide,
    (C8_amended preDB [exRow] [exNorm] (by decide) (by decide)).1,
    (C8_amended preDB [exRow] [exNorm] (by decide) (by decide)).2.1⟩

/-- C9.  `parse_quality_rating` returns the integer `k` exactly when the
string is digit-only with value `k` in [1,5]; "3" parses to 3, while "6",
"0", "abc", "Not Available" and the blank string all normalize to null;
and `process_and_insert_row` appends the quality fact unconditionally, so
a row whose rating normalizes to null is still inserted, with a null
`quality_rating`. -/
theorem C9_rating_normalization (s : String) (k : Nat) :
    (parse_quality_rating s = some k ↔
      (pyIsdigit s = true ∧ strToNat s = k ∧ 1 ≤ k ∧ k ≤ 5)) ∧
    parse_quality_rating "3" = some 3 ∧
    parse_quality_rating "6" = none ∧
    parse_quality_rating "0" = none ∧
    parse_quality_rating "abc" = none ∧
    parse_quality_rating "Not Available" = none ∧
    parse_quality_rating "" = none ∧
    ∀ (db : DB) (r : QRow) (rd : String),
      (process_and_insert_row db r rd).quality
        = db.quality ++ [⟨r.facility_id, parse_quality_rating r.rating, rd,
            r.ownership, r.hospital_type, parse_boolean r.emergency⟩] := by
  refine ⟨parse_quality_rating_iff s k, by decide, by decide, by decide,
    by decide, by decide, by decide, ?_⟩
  intro db r rd
  unfold process_and_insert_row
  dsimp only
  split <;> rfl

/-- C9, witnessed at the rating string "3". -/
theorem C9_rating_normalization_witness :
    parse_quality_rating "3" = some 3 ∧ parse_quality_rating "6" = none :=
  ⟨(C9_rating_normalization "3" 3).2.1, (C9_rating_normalization "3" 3).2.2.1⟩

/-- C10 amended.  A weekly row whose geocoded cell is absent normalizes
without failure to null latitude/longitude (first conjunct, over the raw
row), and the run stores it in the `location` table with null
coordinates — but the location-id re-query cannot match null coordinates,
so the row is dropped from the `hospital` and `weekly_report` inserts
(remaining conjuncts, over the normalized batch alongside the resolvable
row `exNorm`). -/
theorem C10_amended (pk st nm ad ct zp wk : String) (fp : Option ℚ)
    (ms : List (Option ℚ)) (hpk : pk ≠ "1001") :
    normRows [⟨pk, st, nm, ad, ct, zp, fp, none, wk, ms⟩]
      = .ok [⟨pk, st, nm, ct, zp, replaceSentinel fp, none, none, wk,
          ms.map replaceSentinel⟩] ∧
    (weeklyRunPhases emptyDB (dropDupByPk
        [exNorm, ⟨pk, st, nm, ct, zp, replaceSentinel fp, none, none, wk,
          ms.map replaceSentinel⟩])).loc.map
        (fun p => (p.2.latitude, p.2.longitude))
      = [(some (mkRat (-401) 4), some (mkRat 79 2)), (none, none)] ∧
    (weeklyRunPhases emptyDB (dropDupByPk
        [exNorm, ⟨pk, st, nm, ct, zp, replaceSentinel fp, none, none, wk,
          ms.map replaceSentinel⟩])).hosp.map (fun h => h.pk) = ["1001"] ∧
    (weeklyRunPhases emptyDB (dropDupByPk
        [exNorm, ⟨pk, st, nm, ct, zp, replaceSentinel fp, none, none, wk,
          ms.map replaceSentinel⟩])).weekly.map (fun w => w.hospital_weekly_id)
      = ["1001"] := by
  have hbeq : ("1001" == pk) = false := by simp [Ne.symm hpk]
  refine ⟨by simp [normRows, parseGeoRow, normRow], ?_, ?_, ?_⟩ <;>
  simp [weeklyRunPhases, weeklyRunFromHosp, weeklyContinue, dropDupByPk,
    dropDupAux, hbeq, hpk, locInsertMany, locInsert, locQueryIds, rowMatches,
    sqlEqTrue, locConflicts, hospDataOf, hospFKviolation, hospInsertMany,
    hospInsert, hospQuery, weeklyDataOf, weeklyFKviolation, nextLocId,
    factOf, emptyDB, exNorm]

/-- C10 amended, witnessed at the concrete absent-geocode row. -/
theorem C10_amended_witness :
    normRows [⟨"H2", "KS", "Topeka Mercy", "2 Oak St", "Topeka", "66601",
        none, none, "2022-03-01", []⟩]
      = .ok [⟨"H2", "KS", "Topeka Mercy", "Topeka", "66601",
          replaceSentinel none, none, none, "2022-03-01",
          List.map replaceSentinel []⟩] ∧
    (weeklyRunPhases emptyDB (dropDupByPk [exNorm, ⟨"H2", "KS", "Topeka Mercy",
        "Topeka", "66601", replaceSentinel none, none, none, "2022-03-01",
        List.map replaceSentinel []⟩])).hosp.map (fun h => h.pk) = ["1001"] :=
  ⟨(C10_amended "H2" "KS" "Topeka Mercy" "2 Oak St" "Topeka" "66601"
      "2022-03-01" none [] (by decide)).1,
    (C10_amended "H2" "KS" "Topeka Mercy" "2 Oak St" "Topeka" "66601"
      "2022-03-01" none [] (by decide)).2.2.1⟩

end HHS
